import Mathlib

/-!
Shallow embedding of the authentication core of the secure-user-auth
Express/Mongoose service, and proofs about its claimed properties.

Conventions of the embedding:
* Machine time: millisecond timestamps (JS Date.now) are Nat values `Millis`;
  JWT iat/exp claims are in whole seconds, as produced by the jsonwebtoken
  library.
* External cryptographic primitives (bcryptjs, crypto.createHash, jsonwebtoken
  HMAC signing) are modelled by deterministic computable stand-ins: the model
  keeps the interface behaviour the code relies on (deterministic digest
  recomputation, salt/cost embedded in a bcrypt digest, signature bound to
  secret and payload) while replacing the underlying one-way functions by a
  simple mixing function `strCode`. Randomness (bcrypt salt generation,
  crypto.randomBytes) is modelled by passing the random value in as an
  explicit argument.
* Fallible JS paths (thrown errors routed to the Express error handler) are
  modelled as explicit outcome values.
-/

namespace UserAuth

/-- Millisecond timestamps, as produced by JS Date.now(). -/
abbrev Millis := Nat

/-- Deterministic computable stand-in for the one-way digests used by the
external crypto libraries: folds the characters of a string into a Nat with
64-bit wraparound. Only determinism and (on the concrete inputs appearing in
the proofs) collision-freeness are used. -/
def strCode (s : String) : Nat :=
  s.data.foldl (fun h c => (h * 131 + c.toNat + 7) % 18446744073709551616) 5381

/-- Structural character-list prefix test (behaviour of String.startsWith). -/
def charsStartWith : List Char → List Char → Bool
  | [], _ => true
  | _ :: _, [] => false
  | p :: ps, c :: cs => p == c && charsStartWith ps cs

/-- s.startsWith pre, restated structurally over the character data. -/
def strStartsWith (s pre : String) : Bool :=
  charsStartWith pre.data s.data

/-- Model of a bcrypt digest: the cost factor and salt are embedded in the
digest string, as in the real bcryptjs output format. -/
structure BcryptDigest where
  cost : Nat
  salt : Nat
  body : Nat
deriving Repr, DecidableEq

/-- Model of bcrypt.hash (after bcrypt.genSalt cost): the digest body is a
one-way mix of salt, cost and plaintext, and the digest embeds salt and cost. -/
def bcryptHash (cost salt : Nat) (plaintext : String) : BcryptDigest :=
  { cost := cost
    salt := salt
    body := strCode (toString salt ++ "$" ++ toString cost ++ "$" ++ plaintext) }

/-- Model of bcrypt.compare: recomputes the hash using the salt and cost
embedded in the stored digest and compares. -/
def bcryptCompare (plaintext : String) (digest : BcryptDigest) : Bool :=
  digest == bcryptHash digest.cost digest.salt plaintext

/-- Model of crypto.createHash("sha256").update(s).digest("hex"): a keyless
deterministic digest, used for equality lookup of reset tokens. -/
def sha256Hex (s : String) : String :=
  toString (strCode ("sha256:" ++ s))

/-- Identity record, from the mongoose user schema (src/models/userModel.js).
The password field always holds a bcrypt digest once persisted; the three
nullable fields are Option. -/
structure User where
  id : Nat
  name : String
  email : String
  password : BcryptDigest
  role : String
  isActive : Bool
  lastLogin : Option Nat
  passwordResetToken : Option String
  passwordResetExpires : Option Nat
  passwordChangedAt : Option Nat
deriving Repr, DecidableEq

/-- JWT payload as issued by generateAuthToken: subject id, role, issued-at
and expiry in whole seconds. -/
structure TokenPayload where
  id : Nat
  role : String
  iat : Nat
  exp : Nat
deriving Repr, DecidableEq

/-- HMAC signature model: the signature is a one-way mix of the shared secret
and every payload field. -/
def jwtSigOf (secret : Nat) (p : TokenPayload) : Nat :=
  strCode (toString secret ++ "|" ++ toString p.id ++ "|" ++ p.role ++ "|" ++
    toString p.iat ++ "|" ++ toString p.exp)

/-- A compact signed token: payload plus signature. A wire token that does not
even parse is modelled as a token whose signature fails to match, which lands
in the same JsonWebTokenError outcome as a tampered one. -/
structure Jwt where
  payload : TokenPayload
  sig : Nat
deriving Repr, DecidableEq

/-- jwt.sign: attach the signature for the given secret. -/
def jwtSign (secret : Nat) (p : TokenPayload) : Jwt :=
  { payload := p, sig := jwtSigOf secret p }

/-- Outcome of jwt.verify: the two error names the middleware distinguishes,
or the decoded payload. -/
inductive JwtResult where
  | ok (payload : TokenPayload)
  | jsonWebTokenError
  | tokenExpiredError
deriving Repr, DecidableEq

/-- jwt.verify(token, secret): signature integrity first, then expiry
(jsonwebtoken throws TokenExpiredError when clock >= exp). -/
def jwtVerify (secret : Nat) (nowSec : Nat) (t : Jwt) : JwtResult :=
  if t.sig ≠ jwtSigOf secret t.payload then .jsonWebTokenError
  else if t.payload.exp ≤ nowSec then .tokenExpiredError
  else .ok t.payload

/-- userSchema.methods.generateAuthToken: jwt.sign({id, role}, secret,
expiresIn), with iat = now and exp = now + configured lifetime (seconds). -/
def generateAuthToken (secret : Nat) (nowSec lifetimeSec : Nat) (u : User) : Jwt :=
  jwtSign secret { id := u.id, role := u.role, iat := nowSec, exp := nowSec + lifetimeSec }

/-- userSchema.methods.passwordChangedAfter(JWTTimestamp): true when the token
iat (seconds) is strictly below parseInt(passwordChangedAt.getTime() / 1000);
false when passwordChangedAt was never set. -/
def passwordChangedAfter (u : User) (jwtTimestamp : Nat) : Bool :=
  match u.passwordChangedAt with
  | some t => jwtTimestamp < t / 1000
  | none => false

/-- userSchema.methods.matchPassword: bcrypt.compare against the stored hash. -/
def matchPassword (u : User) (candidatePassword : String) : Bool :=
  bcryptCompare candidatePassword u.password

/-- The pre-save hook that rehashes a modified password with cost factor 12
(bcrypt.genSalt(12) then bcrypt.hash); the fresh random salt is an argument. -/
def hashPasswordHook (passwordModified : Bool) (salt : Nat) (plaintext : String)
    (u : User) : User :=
  if passwordModified then { u with password := bcryptHash 12 salt plaintext } else u

/-- The pre-save hook that sets passwordChangedAt = Date.now() - 1000 whenever
the password field is modified on a record that is not newly created. -/
def passwordChangedAtHook (passwordModified isNew : Bool) (nowMs : Nat)
    (u : User) : User :=
  if !passwordModified || isNew then u
  else { u with passwordChangedAt := some (nowMs - 1000) }

/-- userSchema.methods.generatePasswordResetToken: stores the sha256 digest of
a fresh 32-byte random token and an expiry of now + 10 minutes, and returns the
plaintext token. The random token is an argument. -/
def generatePasswordResetToken (resetToken : String) (nowMs : Nat) (u : User) :
    String × User :=
  (resetToken,
    { u with
      passwordResetToken := some (sha256Hex resetToken)
      passwordResetExpires := some (nowMs + 10 * 60 * 1000) })

/-- User.findById over the backing store, modelled as a list of records. -/
def findById (store : List User) (id : Nat) : Option User :=
  store.find? (fun u => u.id == id)

/-- User.findOne({ email }). -/
def findByEmail (store : List User) (email : String) : Option User :=
  store.find? (fun u => u.email == email)

/-- Persist an updated record by id (mongoose save of a loaded document). -/
def saveUser (store : List User) (u : User) : List User :=
  store.map (fun v => if v.id == u.id then u else v)

/-! ## Middleware: protect, authorize, errorHandler -/

/-- The Authorization header after the split on spaces performed by the
middleware: scheme is parts[0]; rest holds the remaining parts, each a wire
token. parts[1], when present, is rest.head?. -/
structure AuthHeaderParts where
  scheme : String
  rest : List Jwt
deriving Repr, DecidableEq

/-- Result of the protect middleware: either the loaded identity is attached
to the request, or next(new ApiError(status, message)) was called. -/
inductive AuthOutcome where
  | authenticated (u : User)
  | rejected (status : Nat) (message : String)
deriving Repr, DecidableEq

/-- Lines 13-19 of the middleware: token stays undefined unless the header is
present, starts with Bearer, and has a part after the space. -/
def extractBearerToken (authHeader : Option AuthHeaderParts) : Option Jwt :=
  match authHeader with
  | some h => if strStartsWith h.scheme "Bearer" then h.rest.head? else none
  | none => none

/-- The protect middleware (src/middleware/authMiddleware.js). Mirrors the
source: extract the bearer token, jwt.verify, User.findById on the decoded id,
isActive check, attach. The source contains no call to passwordChangedAfter:
there is no freshness check between the token iat and passwordChangedAt. -/
def protect (secret : Nat) (store : List User) (nowSec : Nat)
    (authHeader : Option AuthHeaderParts) : AuthOutcome :=
  match extractBearerToken authHeader with
  | none => .rejected 401 "Not authorized, no token provided"
  | some t =>
    match jwtVerify secret nowSec t with
    | .jsonWebTokenError => .rejected 401 "Invalid token"
    | .tokenExpiredError => .rejected 401 "Token expired"
    | .ok decoded =>
      match findById store decoded.id with
      | none => .rejected 401 "User not found"
      | some user =>
        if !user.isActive then .rejected 401 "User account is deactivated"
        else .authenticated user

/-- Result of the authorize middleware. -/
inductive AuthzOutcome where
  | allowed
  | forbidden (status : Nat) (message : String)
deriving Repr, DecidableEq

/-- The authorize(...roles) middleware: req.user is Option (absent when no
prior authentication attached an identity); a role equal to the empty string
is falsy in JS and hits the same guard as an absent role. -/
def authorize (roles : List String) (reqUser : Option User) : AuthzOutcome :=
  match reqUser with
  | none => .forbidden 403 "User role not defined"
  | some user =>
    if user.role == "" then .forbidden 403 "User role not defined"
    else if !(roles.contains user.role) then
      .forbidden 403 ("Role " ++ user.role ++ " is not authorized to access this resource")
    else .allowed

/-- An error object reaching the global error handler: constructor name,
optional HTTP status (set by ApiError), optional mongo error code, message. -/
structure AppError where
  name : String
  statusCode : Option Nat
  code : Option Nat
  message : String
deriving Repr, DecidableEq

/-- The ApiError values produced by the middleware. -/
def apiError (status : Nat) (message : String) : AppError :=
  { name := "ApiError", statusCode := some status, code := none, message := message }

/-- The JSON body sent to the client by the error handler. -/
structure ErrorResponse where
  status : Nat
  success : Bool
  message : String
deriving Repr, DecidableEq

/-- The global errorHandler middleware (src/middleware/errorHandler.js),
without the development-only stack trace and the details field. -/
def errorHandler (err : AppError) : ErrorResponse :=
  let statusCode := err.statusCode.getD 500
  let message := if err.message == "" then "Internal Server Error" else err.message
  if err.name == "ValidationError" then
    { status := 400, success := false, message := "Validation Error" }
  else if err.name == "CastError" then
    { status := 400, success := false, message := "Resource not found" }
  else if err.code == some 11000 then
    { status := 409, success := false, message := "Duplicate field value entered" }
  else if err.name == "JsonWebTokenError" then
    { status := 401, success := false, message := "Invalid token" }
  else if err.name == "TokenExpiredError" then
    { status := 401, success := false, message := "Token expired" }
  else
    { status := statusCode, success := false, message := message }

/-- The client-visible response for a protect outcome: rejections travel as
ApiError values through the error handler. -/
def clientView (o : AuthOutcome) : Option ErrorResponse :=
  match o with
  | .authenticated _ => none
  | .rejected s m => some (errorHandler (apiError s m))

/-! ## Configuration (src/config/config.js) -/

/-- The environment variables the config module reads. none models an unset
variable. -/
structure Env where
  nodeEnv : Option String
  jwtSecret : Option String
deriving Repr, DecidableEq

/-- JS falsiness of an environment variable value: unset or empty string. -/
def envFalsy : Option String → Bool
  | none => true
  | some s => s == ""

/-- config.nodeEnv = process.env.NODE_ENV || "development". -/
def configNodeEnv (e : Env) : String :=
  match e.nodeEnv with
  | some s => if s == "" then "development" else s
  | none => "development"

/-- The development default for the signing secret. -/
def devDefaultSecret : String := "development_secret_key_change_in_production"

/-- config.jwt.secret = process.env.JWT_SECRET || devDefaultSecret. -/
def configJwtSecret (e : Env) : String :=
  match e.jwtSecret with
  | some s => if s == "" then devDefaultSecret else s
  | none => devDefaultSecret

/-- validateConfig: throws iff a required variable (JWT_SECRET) is falsy while
config.nodeEnv is production; the default-secret warning in development is a
console warning, not a failure. -/
def validateConfig (e : Env) : Except String Unit :=
  if envFalsy e.jwtSecret && configNodeEnv e == "production" then
    .error "Environment variable JWT_SECRET is required in production mode"
  else .ok ()

/-! ## Controllers (src/controllers/authController.js) -/

/-- An inbound JSON request body. Every field the controllers may read is
optional; role models an attacker-supplied extra field. -/
structure RequestBody where
  name : String
  email : String
  password : String
  role : Option String
deriving Repr, DecidableEq

/-- User.create as the register and createUser controllers invoke it: the
schema applies defaults (role defaults to "user" when the caller passes no
role, isActive defaults to true, the nullable fields start absent) and the
pre-save hooks run on a new record: the password is hashed with cost 12, and
passwordChangedAt stays unset because the record is new. The schema
lower-cases the email. -/
def userCreate (newId salt : Nat) (name email password : String)
    (role : Option String) : User :=
  passwordChangedAtHook true true 0
    { id := newId
      name := name
      email := email.toLower
      password := bcryptHash 12 salt password
      role := role.getD "user"
      isActive := true
      lastLogin := none
      passwordResetToken := none
      passwordResetExpires := none
      passwordChangedAt := none }

/-- Outcome of a controller: next(new ApiError(status, message)) or a success
payload carrying the responding user record and, when one is issued, a token. -/
inductive CtrlOutcome where
  | failure (status : Nat) (message : String)
  | success (user : User) (token : Option Jwt)
deriving Repr, DecidableEq

/-- The register controller: reads only name, email and password from the
body (the role field of the body is never read), rejects a duplicate email
with 409, creates the user and issues a token. -/
def register (secret lifetimeSec : Nat) (store : List User) (nowMs : Nat)
    (newId salt : Nat) (body : RequestBody) : CtrlOutcome × List User :=
  match findByEmail store body.email with
  | some _ => (.failure 409 "User with this email already exists", store)
  | none =>
    let user := userCreate newId salt body.name body.email body.password none
    (.success user (some (generateAuthToken secret (nowMs / 1000) lifetimeSec user)),
      store ++ [user])

/-- The login controller: missing fields → 400; unknown email or failed
bcrypt comparison → the same 401 "Invalid credentials" with the store
untouched; inactive account → 401; otherwise lastLogin is set to now, the
record saved, and a fresh token issued. -/
def login (secret lifetimeSec : Nat) (store : List User) (nowMs : Nat)
    (email password : String) : CtrlOutcome × List User :=
  if email == "" || password == "" then
    (.failure 400 "Please provide email and password", store)
  else
    match findByEmail store email with
    | none => (.failure 401 "Invalid credentials", store)
    | some user =>
      if !(matchPassword user password) then
        (.failure 401 "Invalid credentials", store)
      else if !user.isActive then
        (.failure 401 "Your account has been deactivated", store)
      else
        let user' := { user with lastLogin := some nowMs }
        (.success user' (some (generateAuthToken secret (nowMs / 1000) lifetimeSec user')),
          saveUser store user')

/-- The findOne query of resetPassword: passwordResetToken equals the digest
and passwordResetExpires > now ($gt fails on an absent field). -/
def findOneReset (store : List User) (digest : String) (nowMs : Nat) : Option User :=
  store.find? (fun u =>
    u.passwordResetToken == some digest &&
      match u.passwordResetExpires with
      | some e => nowMs < e
      | none => false)

/-- The resetPassword controller: recompute the sha256 digest of the
presented plaintext token, look the user up by digest with an unexpired
expiry; on a miss reply 400 with the store untouched; on a hit set the new
password, clear both reset fields, save (both pre-save hooks run: bcrypt
rehash with a fresh salt, passwordChangedAt = now - 1000) and issue a token. -/
def resetPassword (secret lifetimeSec : Nat) (store : List User) (nowMs : Nat)
    (salt : Nat) (resettoken newPassword : String) : CtrlOutcome × List User :=
  let hashedToken := sha256Hex resettoken
  match findOneReset store hashedToken nowMs with
  | none => (.failure 400 "Invalid or expired token", store)
  | some user =>
    let user' :=
      passwordChangedAtHook true false nowMs
        (hashPasswordHook true salt newPassword
          { user with passwordResetToken := none, passwordResetExpires := none })
    (.success user' (some (generateAuthToken secret (nowMs / 1000) lifetimeSec user')),
      saveUser store user')

/-- Does a controller outcome report success? -/
def CtrlOutcome.isSuccess : CtrlOutcome → Bool
  | .success _ _ => true
  | .failure _ _ => false

/-! ## Concrete fixtures used to evaluate the definitions -/

/-- A concrete active user record. -/
def sampleUser : User :=
  { id := 1
    name := "Alice"
    email := "alice@example.com"
    password := bcryptHash 12 7 "Secret@123"
    role := "user"
    isActive := true
    lastLogin := none
    passwordResetToken := none
    passwordResetExpires := none
    passwordChangedAt := none }

/-- The sample user after a password change recorded at epoch second 2000. -/
def staleUser : User := { sampleUser with passwordChangedAt := some 2000000 }

/-- A token for staleUser validly signed with secret 42, issued at epoch
second 1000 (before the password change), expiring at 10000. -/
def staleToken : Jwt := jwtSign 42 { id := 1, role := "user", iat := 1000, exp := 10000 }

/-- A token whose signature does not verify under secret 42. -/
def badSigToken : Jwt :=
  { payload := { id := 1, role := "user", iat := 1000, exp := 10000 }, sig := 0 }

/-! ## Helper lemmas -/

/-- The findOne query of resetPassword hits iff some stored record carries the
digest with a strictly later expiry. -/
theorem findOneReset_isSome_iff (store : List User) (digest : String) (nowMs : Nat) :
    (findOneReset store digest nowMs).isSome = true ↔
      ∃ u ∈ store, u.passwordResetToken = some digest ∧
        ∃ e, u.passwordResetExpires = some e ∧ nowMs < e := by
  unfold findOneReset
  rw [List.find?_isSome]
  constructor
  · rintro ⟨u, hu, hp⟩
    refine ⟨u, hu, ?_⟩
    rcases he : u.passwordResetExpires with _ | e
    · rw [he] at hp; simp at hp
    · rw [he] at hp
      simp only [Bool.and_eq_true, beq_iff_eq, decide_eq_true_eq] at hp
      exact ⟨hp.1, e, rfl, hp.2⟩
  · rintro ⟨u, hu, ht, e, he, hlt⟩
    refine ⟨u, hu, ?_⟩
    rw [ht, he]
    simp [hlt]

/-- resetPassword succeeds exactly when its findOne query hits. -/
theorem resetPassword_isSuccess (secret lt : Nat) (store : List User) (nowMs : Nat)
    (salt : Nat) (rt np : String) :
    (resetPassword secret lt store nowMs salt rt np).fst.isSuccess =
      (findOneReset store (sha256Hex rt) nowMs).isSome := by
  unfold resetPassword
  rcases h : findOneReset store (sha256Hex rt) nowMs with _ | u <;>
    simp [h, CtrlOutcome.isSuccess]

/-! ## Claim theorems -/

/-- C3 counterexample: with NODE_ENV=production and JWT_SECRET set to the
development default string, validateConfig does not throw: the effective
signing secret equals the development default under a production posture, yet
configuration validation passes, contradicting the claim that such a secret is
startup-fatal. -/
theorem c3_counterexample :
    configNodeEnv { nodeEnv := some "production", jwtSecret := some devDefaultSecret } =
        "production" ∧
    configJwtSecret { nodeEnv := some "production", jwtSecret := some devDefaultSecret } =
        devDefaultSecret ∧
    validateConfig { nodeEnv := some "production", jwtSecret := some devDefaultSecret } =
        .ok () := by
  refine ⟨rfl, rfl, rfl⟩

/-- C3 amended: validateConfig throws exactly when the JWT_SECRET environment
variable is unset or empty while the effective node environment is production;
a production run whose secret equals the development default is accepted. -/
theorem c3_validateConfig_production (e : Env) :
    validateConfig e =
        .error "Environment variable JWT_SECRET is required in production mode" ↔
      envFalsy e.jwtSecret = true ∧ configNodeEnv e = "production" := by
  unfold validateConfig
  split
  · rename_i h
    simp only [Bool.and_eq_true, beq_iff_eq] at h
    simp [h]
  · rename_i h
    simp only [Bool.and_eq_true, beq_iff_eq] at h
    constructor
    · intro hc; cases hc
    · intro hc; exact absurd ⟨hc.1, hc.2⟩ h

/-- C7: the authorization gate fails closed. With no attached identity, or an
identity whose role is falsy, it rejects with 403; otherwise it allows exactly
when the role is in the required set and rejects with 403 exactly when it is
not. -/
theorem c7_authorize_fail_closed :
    (∀ roles : List String, authorize roles none = .forbidden 403 "User role not defined") ∧
    (∀ (roles : List String) (u : User), u.role = "" →
      authorize roles (some u) = .forbidden 403 "User role not defined") ∧
    (∀ (roles : List String) (u : User), u.role ≠ "" →
      (authorize roles (some u) = .allowed ↔ u.role ∈ roles) ∧
      (u.role ∉ roles →
        authorize roles (some u) =
          .forbidden 403 ("Role " ++ u.role ++ " is not authorized to access this resource"))) := by
  refine ⟨fun roles => rfl, ?_, ?_⟩
  · intro roles u h
    simp [authorize, h]
  · intro roles u h
    have hb : (u.role == "") = false := by simp [h]
    constructor
    · constructor
      · intro ha
        by_contra hmem
        simp [authorize, hb, hmem] at ha
      · intro hmem
        simp [authorize, hb, hmem]
    · intro hmem
      simp [authorize, hb, hmem]

/-- C7 witness: the gate evaluated at concrete inputs — admin allowed on an
admin-only set, user forbidden on it, missing identity forbidden. -/
theorem c7_authorize_witness :
    authorize ["admin"] (some { sampleUser with role := "admin" }) = .allowed ∧
    authorize ["admin"] (some sampleUser) =
      .forbidden 403 "Role user is not authorized to access this resource" ∧
    authorize ["admin"] none = .forbidden 403 "User role not defined" := by
  refine ⟨?_, ?_, c7_authorize_fail_closed.1 ["admin"]⟩
  · exact (c7_authorize_fail_closed.2.2 ["admin"] _ (by decide)).1.mpr (by decide)
  · exact (c7_authorize_fail_closed.2.2 ["admin"] _ (by decide)).2 (by decide)

/-- C8: password hashing through the pre-save hook verifies against the
plaintext via matchPassword for every salt, and two hashes of the same
plaintext under distinct salts are distinct digests that both verify.
Randomness of bcrypt.genSalt is modelled by the explicit salt argument. -/
theorem c8_hash_verify (u : User) (p : String) (s1 s2 : Nat) (hne : s1 ≠ s2) :
    matchPassword (hashPasswordHook true s1 p u) p = true ∧
    matchPassword (hashPasswordHook true s2 p u) p = true ∧
    (hashPasswordHook true s1 p u).password ≠ (hashPasswordHook true s2 p u).password := by
  refine ⟨?_, ?_, ?_⟩
  · simp [matchPassword, hashPasswordHook, bcryptCompare, bcryptHash]
  · simp [matchPassword, hashPasswordHook, bcryptCompare, bcryptHash]
  · intro h
    exact hne (congrArg BcryptDigest.salt (by simpa [hashPasswordHook] using h))

/-- C8 witness: two concrete salted hashes of the same concrete password. -/
theorem c8_hash_verify_witness :
    matchPassword (hashPasswordHook true 0 "Secret@123" sampleUser) "Secret@123" = true ∧
    matchPassword (hashPasswordHook true 1 "Secret@123" sampleUser) "Secret@123" = true ∧
    (hashPasswordHook true 0 "Secret@123" sampleUser).password ≠
      (hashPasswordHook true 1 "Secret@123" sampleUser).password :=
  c8_hash_verify sampleUser "Secret@123" 0 1 (by decide)

/-- C1: the protect middleware accepts a validly signed, unexpired token for
an active user whose passwordChangedAt postdates the token iat: at the
concrete input, passwordChangedAfter reports the token as issued before the
password change, yet protect authenticates the request, because the source
never invokes passwordChangedAfter. The spec requires Rejected(stale-token)
here. -/
theorem c1_protect_accepts_stale :
    passwordChangedAfter staleUser 1000 = true ∧
    jwtVerify 42 1500 staleToken = .ok staleToken.payload ∧
    protect 42 [staleUser] 1500 (some { scheme := "Bearer", rest := [staleToken] }) =
      .authenticated staleUser := by
  refine ⟨by decide, by decide, by decide⟩

/-- C2 counterexample: a password change recorded by the pre-save hook at
Date.now() = 5000000 stores passwordChangedAt = 4999000; a token issued in the
same instant carries iat = 5000000 / 1000 = 5000, and the freshness check
passwordChangedAfter reports it as NOT stale — the 1-second skew makes a
same-instant token pass the freshness check, not fail it. -/
theorem c2_same_instant_token_not_stale :
    (passwordChangedAtHook true false 5000000 sampleUser).passwordChangedAt =
        some 4999000 ∧
    passwordChangedAfter (passwordChangedAtHook true false 5000000 sampleUser)
        (5000000 / 1000) = false := by
  refine ⟨by decide, by decide⟩

/-- C2 amended: on every password mutation except initial creation the hook
sets passwordChangedAt to now - 1000 ms — strictly before now, by a skew of
exactly one second — and this skew guarantees that a token issued in the same
instant as the change is NOT considered stale by the freshness check (it keeps
a token minted together with the change valid); on initial creation or when
the password is unmodified the timestamp is untouched. -/
theorem c2_changedAt_skew (u : User) (nowMs : Nat) (h : 1000 ≤ nowMs) :
    (passwordChangedAtHook true false nowMs u).passwordChangedAt =
        some (nowMs - 1000) ∧
    nowMs - 1000 < nowMs ∧
    nowMs - (nowMs - 1000) = 1000 ∧
    passwordChangedAfter (passwordChangedAtHook true false nowMs u)
        (nowMs / 1000) = false ∧
    (∀ isNew, passwordChangedAtHook false isNew nowMs u = u) ∧
    passwordChangedAtHook true true nowMs u = u := by
  have hle : (nowMs - 1000) / 1000 ≤ nowMs / 1000 :=
    Nat.div_le_div_right (Nat.sub_le _ _)
  refine ⟨by simp [passwordChangedAtHook], ?_, ?_, ?_, ?_, ?_⟩
  · omega
  · omega
  · simp [passwordChangedAtHook, passwordChangedAfter]
    omega
  · intro isNew; simp [passwordChangedAtHook]
  · simp [passwordChangedAtHook]

/-- C2 witness: the amended statement at the concrete instant 5000000 ms. -/
theorem c2_changedAt_skew_witness :
    (passwordChangedAtHook true false 5000000 staleUser).passwordChangedAt =
        some (5000000 - 1000) ∧
    passwordChangedAfter (passwordChangedAtHook true false 5000000 staleUser)
        (5000000 / 1000) = false := by
  have h := c2_changedAt_skew staleUser 5000000 (by norm_num)
  exact ⟨h.1, h.2.2.2.1⟩

/-- C9: a successful registration always creates an identity with role
"user" and appends exactly that identity to the store: the register
controller reads only name, email and password from the body, never its role
field, and the schema default applies — so a body carrying role "admin"
still produces a user-role identity. -/
theorem c9_register_role (secret lt : Nat) (store : List User)
    (nowMs newId salt : Nat) (body : RequestBody) (u : User) (tok : Option Jwt)
    (st' : List User)
    (h : register secret lt store nowMs newId salt body = (.success u tok, st')) :
    u.role = "user" ∧ st' = store ++ [u] := by
  unfold register at h
  split at h
  · simp at h
  · simp only [Prod.mk.injEq, CtrlOutcome.success.injEq] at h
    obtain ⟨⟨hu, -⟩, hst⟩ := h
    subst hu
    exact ⟨by simp [userCreate, passwordChangedAtHook], hst.symm⟩

/-- C9 witness: registering with a body that smuggles role "admin" still
yields role "user". -/
theorem c9_register_role_witness :
    (userCreate 7 0 "Eve" "eve@example.com" "Secret@123" none).role = "user" :=
  (c9_register_role 42 86400 [] 5000000 7 0
    { name := "Eve", email := "eve@example.com", password := "Secret@123",
      role := some "admin" }
    (userCreate 7 0 "Eve" "eve@example.com" "Secret@123" none)
    (some (generateAuthToken 42 5000 86400
      (userCreate 7 0 "Eve" "eve@example.com" "Secret@123" none)))
    [userCreate 7 0 "Eve" "eve@example.com" "Secret@123" none] rfl).1

/-- C6 counterexample: two requests failing authentication for different
reasons (no token vs tampered signature) reach the client with different
error messages through the error handler, so the client-visible wording is
not indistinguishable across AuthenticationFailure subtypes. -/
theorem c6_messages_distinguishable :
    clientView (protect 42 [sampleUser] 1500 none) =
      some { status := 401, success := false,
             message := "Not authorized, no token provided" } ∧
    clientView (protect 42 [sampleUser] 1500
        (some { scheme := "Bearer", rest := [badSigToken] })) =
      some { status := 401, success := false, message := "Invalid token" } ∧
    ("Not authorized, no token provided" : String) ≠ "Invalid token" := by
  refine ⟨by decide, by decide, by decide⟩

/-- C6 amended: every authentication rejection surfaces with status 401 and
one of five fixed, stable messages — but each subtype has its own message
(no token / invalid token / expired token / user not found / deactivated),
the five messages are pairwise distinct, and the error handler forwards each
ApiError message verbatim to the client, so different failure reasons are
client-distinguishable rather than uniform. -/
theorem c6_rejection_messages :
    (∀ (secret : Nat) (store : List User) (nowSec : Nat)
        (hdr : Option AuthHeaderParts),
      (∃ u, protect secret store nowSec hdr = .authenticated u) ∨
        protect secret store nowSec hdr ∈
          [AuthOutcome.rejected 401 "Not authorized, no token provided",
            .rejected 401 "Invalid token",
            .rejected 401 "Token expired",
            .rejected 401 "User not found",
            .rejected 401 "User account is deactivated"]) ∧
    ["Not authorized, no token provided", "Invalid token", "Token expired",
      "User not found", "User account is deactivated"].Nodup ∧
    (["Not authorized, no token provided", "Invalid token", "Token expired",
        "User not found", "User account is deactivated"].all fun m =>
      errorHandler (apiError 401 m) ==
        { status := 401, success := false, message := m }) = true := by
  refine ⟨?_, by decide, by decide⟩
  intro secret store nowSec hdr
  unfold protect
  rcases ht : extractBearerToken hdr with _ | t
  · right; simp
  · rcases hv : jwtVerify secret nowSec t with p | _ | _
    · rcases hfind : findById store p.id with _ | u
      · right; simp [hv, hfind]
      · rcases ha : u.isActive with _ | _
        · right; simp [hv, hfind, ha]
        · left; exact ⟨u, by simp [hv, hfind, ha]⟩
    · right; simp [hv]
    · right; simp [hv]

/-- C10: an unknown email and an existing email with a wrong password produce
literally the same login result — a 401 failure with message
"Invalid credentials" and the store unchanged (no token is carried by a
failure outcome, and no record is modified); any failing login leaves the
store untouched; and a successful login is possible only when the password
comparison and the active check both passed, in which case exactly lastLogin
is set to now on the matched record. -/
theorem c10_login_uniform (secret lt : Nat) (store : List User) (nowMs : Nat)
    (email pw : String) (hem : email ≠ "") (hpw : pw ≠ "") :
    (findByEmail store email = none →
      login secret lt store nowMs email pw =
        (.failure 401 "Invalid credentials", store)) ∧
    (∀ u, findByEmail store email = some u → matchPassword u pw = false →
      login secret lt store nowMs email pw =
        (.failure 401 "Invalid credentials", store)) ∧
    (∀ u tok, (login secret lt store nowMs email pw).fst = .success u tok →
      ∃ v, findByEmail store email = some v ∧ matchPassword v pw = true ∧
        v.isActive = true ∧ u = { v with lastLogin := some nowMs }) ∧
    ((login secret lt store nowMs email pw).fst.isSuccess = false →
      (login secret lt store nowMs email pw).snd = store) := by
  have hcond : (email == "" || pw == "") = false := by simp [hem, hpw]
  refine ⟨?_, ?_, ?_, ?_⟩
  · intro hf; simp [login, hcond, hf]
  · intro u hf hm; simp [login, hcond, hf, hm]
  · intro u tok h
    unfold login at h
    rcases hf : findByEmail store email with _ | v
    · simp [hcond, hf] at h
    · rcases hm : matchPassword v pw with _ | _
      · simp [hcond, hf, hm] at h
      · rcases ha : v.isActive with _ | _
        · simp [hcond, hf, hm, ha] at h
        · simp [hcond, hf, hm, ha] at h
          exact ⟨v, rfl, hm, ha, by rw [show v.isActive = true from ha]; exact h.1.symm⟩
  · intro hs
    unfold login at hs ⊢
    rcases hf : findByEmail store email with _ | v
    · simp [hcond, hf]
    · rcases hm : matchPassword v pw with _ | _
      · simp [hcond, hf, hm]
      · rcases ha : v.isActive with _ | _
        · simp [hcond, hf, hm, ha]
        · exfalso
          simp [hcond, hf, hm, ha, CtrlOutcome.isSuccess] at hs

/-- C10 witness: a login against an empty store and a login with a wrong
password against an existing record both yield the identical failure value. -/
theorem c10_login_uniform_witness :
    login 42 86400 [] 0 "alice@example.com" "Secret@123" =
      (.failure 401 "Invalid credentials", []) ∧
    login 42 86400 [sampleUser] 0 "alice@example.com" "Wrong@123" =
      (.failure 401 "Invalid credentials", [sampleUser]) := by
  constructor
  · exact (c10_login_uniform 42 86400 [] 0 "alice@example.com" "Secret@123"
      (by decide) (by decide)).1 rfl
  · exact (c10_login_uniform 42 86400 [sampleUser] 0 "alice@example.com" "Wrong@123"
      (by decide) (by decide)).2.1 sampleUser rfl (by decide)

/-- C5: reset redemption succeeds exactly when some stored record carries the
sha256 digest recomputed from the presented plaintext with a strictly later
expiry; issuance stores the digest of the plaintext and an expiry of
now + 10 minutes; and once now has reached the expiry, redemption fails even
with the correct plaintext. -/
theorem c5_redeem_conditions (secret lt salt : Nat) (store : List User)
    (nowMs : Nat) (rt np : String) :
    ((resetPassword secret lt store nowMs salt rt np).fst.isSuccess = true ↔
      ∃ u ∈ store, u.passwordResetToken = some (sha256Hex rt) ∧
        ∃ e, u.passwordResetExpires = some e ∧ nowMs < e) ∧
    (∀ (u : User) (rnd : String) (t : Nat),
      (generatePasswordResetToken rnd t u).snd.passwordResetToken =
          some (sha256Hex rnd) ∧
      (generatePasswordResetToken rnd t u).snd.passwordResetExpires =
          some (t + 10 * 60 * 1000)) ∧
    (∀ (u : User) (rnd : String) (t : Nat), t + 10 * 60 * 1000 ≤ nowMs →
      (resetPassword secret lt [(generatePasswordResetToken rnd t u).snd]
          nowMs salt rnd np).fst.isSuccess = false) := by
  refine ⟨?_, ?_, ?_⟩
  · rw [resetPassword_isSuccess]
    exact findOneReset_isSome_iff store (sha256Hex rt) nowMs
  · intro u rnd t
    exact ⟨rfl, rfl⟩
  · intro u rnd t hle
    rw [resetPassword_isSuccess]
    have hnot : ¬ nowMs < t + 10 * 60 * 1000 := by omega
    simp [findOneReset, generatePasswordResetToken, hnot]

/-- C5 witness: redeeming at exactly the expiry instant with the correct
plaintext fails. -/
theorem c5_redeem_conditions_witness :
    (resetPassword 42 86400 [(generatePasswordResetToken "tok" 0 sampleUser).snd]
        600000 3 "tok" "New@12345").fst.isSuccess = false :=
  (c5_redeem_conditions 42 86400 3
    [(generatePasswordResetToken "tok" 0 sampleUser).snd] 600000 "tok"
    "New@12345").2.2 sampleUser "tok" 0 (by norm_num)

/-- C4: a reset ticket is single-use, and only a successful redemption clears
the stored fields. Issue a ticket for a user, keep that record as the store:
if the first redemption happens before the expiry it succeeds, every record
in the resulting store has both reset fields cleared, and a second redemption
with the same plaintext fails; if the first attempt happens at or after the
expiry it is rejected and the store — including the stored digest and expiry —
is completely unchanged. -/
theorem c4_reset_single_use (secret lt salt salt2 : Nat) (u : User)
    (rnd np np2 : String) (t t1 t2 : Nat) :
    ∀ issued r1, issued = (generatePasswordResetToken rnd t u).snd →
      r1 = resetPassword secret lt [issued] t1 salt rnd np →
      ((t1 < t + 10 * 60 * 1000 →
          r1.fst.isSuccess = true ∧
          (∀ v ∈ r1.snd, v.passwordResetToken = none ∧
            v.passwordResetExpires = none) ∧
          (resetPassword secret lt r1.snd t2 salt2 rnd np2).fst =
            .failure 400 "Invalid or expired token") ∧
        (t + 10 * 60 * 1000 ≤ t1 →
          r1.fst = .failure 400 "Invalid or expired token" ∧ r1.snd = [issued])) := by
  intro issued r1 hiss hr1
  subst hiss hr1
  constructor
  · intro hlt
    have hfind : findOneReset [(generatePasswordResetToken rnd t u).snd]
        (sha256Hex rnd) t1 = some ((generatePasswordResetToken rnd t u).snd) := by
      simp [findOneReset, generatePasswordResetToken, hlt]
    refine ⟨?_, ?_, ?_⟩
    · rw [resetPassword_isSuccess, hfind]; rfl
    · intro v hv
      simp only [resetPassword, hfind] at hv
      simp [saveUser, generatePasswordResetToken, hashPasswordHook,
        passwordChangedAtHook] at hv
      subst hv
      constructor <;> rfl
    · simp only [resetPassword, hfind]
      simp [resetPassword, findOneReset, saveUser, generatePasswordResetToken,
        hashPasswordHook, passwordChangedAtHook]
  · intro hle
    have hnot : ¬ t1 < t + 10 * 60 * 1000 := by omega
    have hfind : findOneReset [(generatePasswordResetToken rnd t u).snd]
        (sha256Hex rnd) t1 = none := by
      simp [findOneReset, generatePasswordResetToken, hnot]
    simp [resetPassword, hfind]

/-- C4 witness: issue at time 0, redeem successfully at 1000, observe the
cleared fields, and fail on the second redemption with the same plaintext. -/
theorem c4_reset_single_use_witness :
    (resetPassword 42 86400 [(generatePasswordResetToken "tok" 0 sampleUser).snd]
        1000 3 "tok" "New@12345").fst.isSuccess = true ∧
    (resetPassword 42 86400
        (resetPassword 42 86400
          [(generatePasswordResetToken "tok" 0 sampleUser).snd]
          1000 3 "tok" "New@12345").snd
        2000 4 "tok" "Again@12345").fst = .failure 400 "Invalid or expired token" := by
  have h := (c4_reset_single_use 42 86400 3 4 sampleUser "tok" "New@12345"
    "Again@12345" 0 1000 2000 _ _ rfl rfl).1 (by norm_num)
  exact ⟨h.1, h.2.2⟩

end UserAuth
